import Mathlib

/-!
Verification of the housework_analysis data-entry application
(`src/scripts/main.py`) against its natural-language specification.

The Python source is shallowly embedded: every application function becomes
an executable Lean definition over explicit data, and the observable
behaviour of a request (SQL calls, commits, rollbacks, inserts, flashed
messages, renders, redirects) is recorded as a list of events.  Failures of
the external database are supplied by an explicit environment (an oracle
saying which of the calls raise), and Python exceptions are made explicit
as an `Option PyExc` component so that catching and propagation are visible
in the model.
-/

/-- Message categories used by `flash(message, category)` in the source. -/
inductive MsgCat
  | success
  | warning
  | danger
deriving DecidableEq, Repr

/-- A staged task record, as constructed by `TaskRecord(...)` in the source
(the auto-assigned primary key is omitted; `date` and the duration are kept
as the literal CSV/form values, as the source performs no coercion). -/
structure TaskRecord where
  date : String
  person_id : Int
  task_id : Int
  task_duration_minutes : Int
deriving DecidableEq, Repr

/-- One parsed CSV data row, with the four columns the source accesses:
`Date`, `Person`, `Task`, `Task Duration Minutes`. -/
structure Row where
  date : String
  person : String
  task : String
  minutes : Int
deriving DecidableEq, Repr

/-- Observable events of a request: SQL statements, transaction boundaries,
inserts, flashed messages, renders and redirects. -/
inductive Ev
  | execSql (stmt : String)
  | commit
  | rollback
  | bulkInsert (recs : List TaskRecord)
  | addRecord (rec1 : TaskRecord)
  | flash (msg : String) (cat : MsgCat)
  | render (personChoices taskChoices : List (Int × String))
  | redirect
deriving DecidableEq, Repr

/-- Python exceptions relevant to the source: `SQLAlchemyError` and every
other `Exception`, each carrying `str(e)`. -/
inductive PyExc
  | sqlalchemy (msg : String)
  | generic (msg : String)
deriving DecidableEq, Repr

/-- An ASCII single quote, written with an escape. -/
def squote : String := "\x27"

def truncSql : String := "CALL truncate_stg_fact_housework_tasks();"

def popSql : String := "CALL populate_fact_housework_tasks();"

def backSql : String := "CALL backfill_agg_daily_housework_tasks();"

def truncOkMsg : String := "Successfully truncated stg_fact_housework_tasks!"

def truncErrMsg (e : String) : String :=
  "Error while truncate stg_fact_housework_tasks: " ++ e

def invalidTblMsg (t : String) : String := "Invalid table name: " ++ t

def popOkMsg : String := "Successfully populated fact_housework_tasks!"

def popErrMsg (e : String) : String :=
  "Error while populate fact_housework_tasks: " ++ e

def backOkMsg : String := "Successfully backfilling agg_daily_housework_tasks!"

def backErrMsg (e : String) : String :=
  "Error while backfilling agg_daily_housework_tasks: " ++ e

def personNotFoundMsg (name : String) : String :=
  "Person " ++ squote ++ name ++ squote ++ " not found in database."

def taskNotFoundMsg (name : String) : String :=
  "Task " ++ squote ++ name ++ squote ++ " not found in database."

def successInsertedMsg (n : Nat) : String :=
  "Successfully inserted " ++ toString n ++ " task records."

def noValidMsg : String := "No valid task records to insert."

def errProcessingMsg (e : String) : String := "Error processing CSV: " ++ e

def unexpectedErrMsg (e : String) : String := "Unexpected error: " ++ e

def recordAddedMsg : String := "Task record added successfully!"

def invalidCsvFileMsg : String := "Please upload a valid CSV file."

def csvProcessedMsg : String := "CSV file processed successfully!"

def invalidActionMsg : String := "Invalid action or form submission."

def minutesMsg : String := "Minutes field should be greater than 0."

/-- Python truthiness failure for a looked-up id: `not x` is `True` exactly
when the lookup returned `None` or the id `0`.  This is the test
`if not person_id` / `if not task_id` in `process_csv`. -/
def pyFalsy : Option Int → Bool
  | none => true
  | some v => v == 0

/-- `truncate_postgres_tbl` from the source: for the recognised table name
it executes the truncate procedure and commits; on `SQLAlchemyError`
(signalled by `err = some e`) it rolls back and flashes a danger message;
for any other table name it only flashes. -/
def truncate_postgres_tbl (err : Option String) (tbl_name : String) : List Ev :=
  if tbl_name = "stg_fact_housework_tasks" then
    match err with
    | none => [Ev.execSql truncSql, Ev.commit, Ev.flash truncOkMsg MsgCat.success]
    | some e => [Ev.execSql truncSql, Ev.rollback, Ev.flash (truncErrMsg e) MsgCat.danger]
  else
    [Ev.flash (invalidTblMsg tbl_name) MsgCat.danger]

/-- `populate_fact_housework_tasks` from the source. -/
def populate_fact_housework_tasks (err : Option String) : List Ev :=
  match err with
  | none => [Ev.execSql popSql, Ev.commit, Ev.flash popOkMsg MsgCat.success]
  | some e => [Ev.execSql popSql, Ev.rollback, Ev.flash (popErrMsg e) MsgCat.danger]

/-- `backfill_agg_daily_housework_tasks` from the source. -/
def backfill_agg_daily_housework_tasks (err : Option String) : List Ev :=
  match err with
  | none => [Ev.execSql backSql, Ev.commit, Ev.flash backOkMsg MsgCat.success]
  | some e => [Ev.execSql backSql, Ev.rollback, Ev.flash (backErrMsg e) MsgCat.danger]

/-- Text after the last dot of a filename, i.e. `filename.rsplit('.', 1)[1]`;
`none` when the filename contains no dot. -/
def afterLastDot : List Char → Option (List Char)
  | [] => none
  | c :: cs =>
    match afterLastDot cs with
    | some r => some r
    | none => if c = '.' then some cs else none

/-- `allowed_file` from the source:
`'.' in filename and filename.rsplit('.', 1)[1].lower() in ['csv']`. -/
def allowed_file (filename : String) : Bool :=
  match afterLastDot filename.data with
  | none => false
  | some ext => ext.map Char.toLower == "csv".data

/-- The reference tables `dim_person` / `dim_task` are lists of (id, name)
rows; the dict comprehensions `{p.name: p.id for p in ...}` become
association lists keyed by name (names are unique in practice, so the
dict/association-list distinction is immaterial). -/
def nameToId (xs : List (Int × String)) : List (String × Int) :=
  xs.map (fun x => (x.2, x.1))

/-- The `TaskRecord(...)` built for one resolvable CSV row. -/
def mkRecord (pid tid : Int) (row : Row) : TaskRecord :=
  ⟨row.date, pid, tid, row.minutes⟩

/-- The row-scanning loop of `process_csv`: for each row, look up the person
and task ids; if either is falsy, skip the row and flash a danger
diagnostic; otherwise collect a `TaskRecord`.  Returns the collected records
and the flashed events, in source order. -/
def processRows (persons tasks : List (String × Int)) : List Row → List TaskRecord × List Ev
  | [] => ([], [])
  | row :: rest =>
    let r := processRows persons tasks rest
    if pyFalsy (persons.lookup row.person) then
      (r.1, Ev.flash (personNotFoundMsg row.person) MsgCat.danger :: r.2)
    else if pyFalsy (tasks.lookup row.task) then
      (r.1, Ev.flash (taskNotFoundMsg row.task) MsgCat.danger :: r.2)
    else
      (mkRecord ((persons.lookup row.person).getD 0) ((tasks.lookup row.task).getD 0) row :: r.1,
        r.2)

/-- A CSV row is resolvable when both lookups yield a truthy id; these are
exactly the rows `process_csv` turns into staging records. -/
def resolvableRow (persons tasks : List (String × Int)) (row : Row) : Bool :=
  !pyFalsy (persons.lookup row.person) && !pyFalsy (tasks.lookup row.task)

/-- Environment for one `process_csv` call: whether the reference-data
queries raise `SQLAlchemyError`, the outcome of reading/decoding/parsing the
file (`Except.error e` for a raised parsing exception), and whether the bulk
insert raises `SQLAlchemyError`. -/
structure CsvEnv where
  queryErr : Option String
  parsed : Except String (List Row)
  insertErr : Option String
deriving Repr

/-- The `try:` body of `process_csv`: reference queries, file parsing, the
row scan, and the bulk insert; returns the events emitted so far together
with the exception raised, if any. -/
def process_csv_body (persons tasks : List (Int × String)) (env : CsvEnv) :
    List Ev × Option PyExc :=
  match env.queryErr with
  | some e => ([], some (PyExc.sqlalchemy e))
  | none =>
    match env.parsed with
    | Except.error e => ([], some (PyExc.generic e))
    | Except.ok rows =>
      let r := processRows (nameToId persons) (nameToId tasks) rows
      if r.1 = [] then
        (r.2 ++ [Ev.flash noValidMsg MsgCat.warning], none)
      else
        match env.insertErr with
        | some e => (r.2 ++ [Ev.bulkInsert r.1], some (PyExc.sqlalchemy e))
        | none =>
          (r.2 ++ [Ev.bulkInsert r.1, Ev.commit,
            Ev.flash (successInsertedMsg r.1.length) MsgCat.success], none)

/-- The two exception handlers of `process_csv`:
`except SQLAlchemyError` rolls back and flashes a danger message;
`except Exception` flashes a danger message.  Together they catch every
exception the body can raise. -/
def runHandlers : List Ev × Option PyExc → List Ev × Option PyExc
  | (evs, none) => (evs, none)
  | (evs, some (PyExc.sqlalchemy e)) =>
    (evs ++ [Ev.rollback, Ev.flash (errProcessingMsg e) MsgCat.danger], none)
  | (evs, some (PyExc.generic e)) =>
    (evs ++ [Ev.flash (unexpectedErrMsg e) MsgCat.danger], none)

/-- `process_csv` from the source: the body wrapped in its handlers. -/
def process_csv_run (persons tasks : List (Int × String)) (env : CsvEnv) :
    List Ev × Option PyExc :=
  runHandlers (process_csv_body persons tasks env)

/-- The event trace of `process_csv` (its exception component is always
`none`; see the theorem for claim C6). -/
def process_csv (persons tasks : List (Int × String)) (env : CsvEnv) : List Ev :=
  (process_csv_run persons tasks env).1

/-- The submitted form data, after the field-level coercions WTForms
performs: `date` is the parsed date (absent when missing/invalid), `person`
and `task` are the coerced integer ids, `task_duration_minutes` the
datum of the `IntegerField` — `some` the coerced integer (the field
default 0 applies when the field is absent from the POST data), `none`
when the posted value failed integer coercion — and `file` the attached
filename. -/
structure Form where
  date : Option String
  person : Option Int
  task : Option Int
  task_duration_minutes : Option Int
  file : Option String
deriving DecidableEq, Repr

/-- `DataRequired` on an integer-coerced field: fails when the datum is
missing or falsy (in particular the integer 0 fails). -/
def dataRequiredInt : Option Int → Bool
  | none => false
  | some v => v != 0

/-- `FileAllowed(['csv'])`: the lower-cased filename must end with a dot
followed by the allowed extension. -/
def fileAllowedCsv (fn : String) : Bool :=
  List.isSuffixOf ".csv".data (fn.data.map Char.toLower)

/-- `form.validate_on_submit()` for `TaskRecordForm` on a POST: `date`
present, `person` and `task` present, truthy and among the loaded choices,
the minutes field truthy (`DataRequired` rejects 0), and any attached file
allowed by `FileAllowed(['csv'])`. -/
def formValidates (f : Form) (personIds taskIds : List Int) : Bool :=
  f.date.isSome
    && dataRequiredInt f.person
    && (match f.person with
        | none => false
        | some p => personIds.contains p)
    && dataRequiredInt f.task
    && (match f.task with
        | none => false
        | some t => taskIds.contains t)
    && dataRequiredInt f.task_duration_minutes
    && (match f.file with
        | none => true
        | some fn => fileAllowedCsv fn)

/-- The `TaskRecord` constructed in the `submit_record` branch from the
validated form data (validation guarantees the options are present, so the
defaults are never used there). -/
def formRecord (f : Form) : TaskRecord :=
  ⟨f.date.getD "", f.person.getD 0, f.task.getD 0, f.task_duration_minutes.getD 0⟩

/-- Environment for one request: which of the stored-procedure calls raise
`SQLAlchemyError`, whether the single-record insert of the manual branch
raises, and the environment of an eventual `process_csv` call. -/
structure HandlerEnv where
  truncateErr : Option String
  recordInsertErr : Option String
  csv : CsvEnv
  populateErr : Option String
  backfillErr : Option String
deriving Repr

/-- `str(e)` for the `TypeError` Python raises when evaluating
`None <= 0`. -/
def typeErrMsg : String :=
  squote ++ "<=" ++ squote ++ " not supported between instances of "
    ++ squote ++ "NoneType" ++ squote ++ " and " ++ squote ++ "int" ++ squote

/-- The final `else` branch of the POST dispatch: flash the generic invalid
message, then evaluate `form.task_duration_minutes.data <= 0` — Python
evaluates this left operand of `and` before the action comparison, so when
the minutes datum is `None` (uncoercible posted value) an uncaught
`TypeError` propagates and the re-render is never reached; otherwise flash
the minutes message when the duration is non-positive on a `submit_record`
action and fall through to re-rendering the form. -/
def fallbackBranch (persons tasks : List (Int × String)) (action : Option String)
    (form : Form) : List Ev × Option PyExc :=
  match form.task_duration_minutes with
  | none => ([Ev.flash invalidActionMsg MsgCat.danger], some (PyExc.generic typeErrMsg))
  | some m =>
    ([Ev.flash invalidActionMsg MsgCat.danger]
        ++ (if m ≤ 0 ∧ action = some "submit_record" then
              [Ev.flash minutesMsg MsgCat.danger]
            else [])
        ++ [Ev.render persons tasks], none)

/-- The route handler `add_task_record` from the source.  `persons` and
`tasks` are the current reference tables (also used to populate the
dropdown choices), `isPost` distinguishes POST from GET, `action` is
`request.form.get('action')`.  The result is the event trace together with
an uncaught exception, if one propagates (the single-record
`db.session.add`/`commit` of the manual branch is not wrapped in any
`try`). -/
def add_task_record (persons tasks : List (Int × String)) (isPost : Bool)
    (action : Option String) (form : Form) (env : HandlerEnv) :
    List Ev × Option PyExc :=
  match isPost with
  | false => ([Ev.render persons tasks], none)
  | true =>
    if action = some "submit_record"
        ∧ formValidates form (persons.map Prod.fst) (tasks.map Prod.fst) = true then
      let t := truncate_postgres_tbl env.truncateErr "stg_fact_housework_tasks"
      match env.recordInsertErr with
      | some e => (t ++ [Ev.addRecord (formRecord form)], some (PyExc.sqlalchemy e))
      | none =>
        (t ++ [Ev.addRecord (formRecord form), Ev.commit,
            Ev.flash recordAddedMsg MsgCat.success]
          ++ populate_fact_housework_tasks env.populateErr
          ++ backfill_agg_daily_housework_tasks env.backfillErr
          ++ [Ev.redirect], none)
    else if action = some "upload_csv" ∧ form.file.isSome = true then
      let t := truncate_postgres_tbl env.truncateErr "stg_fact_housework_tasks"
      match form.file with
      | some fn =>
        if allowed_file fn = false then
          (t ++ [Ev.flash invalidCsvFileMsg MsgCat.danger, Ev.redirect], none)
        else
          (t ++ process_csv persons tasks env.csv
            ++ [Ev.flash csvProcessedMsg MsgCat.success]
            ++ populate_fact_housework_tasks env.populateErr
            ++ backfill_agg_daily_housework_tasks env.backfillErr
            ++ [Ev.redirect], none)
      | none => fallbackBranch persons tasks action form
    else
      fallbackBranch persons tasks action form

/-- Recogniser for flash events, used to state that a trace touches no
storage (every event in it is a flashed message). -/
def isFlashEv : Ev → Bool
  | Ev.flash _ _ => true
  | _ => false

/-- A stored-procedure wrapper's trace forms its own transactional boundary:
it starts with the procedure call and the very next event is a `commit` or a
`rollback`. -/
def ownTxn (sql : String) (evs : List Ev) : Prop :=
  evs.head? = some (Ev.execSql sql) ∧ (evs[1]? = some Ev.commit ∨ evs[1]? = some Ev.rollback)

/-- The events of the ingest step that sits between the truncate call and
the populate call: the single-record insert on a `submit_record` action,
otherwise the `process_csv` call followed by the unconditional success
flash. -/
def ingestMid (persons tasks : List (Int × String)) (action : Option String)
    (form : Form) (env : HandlerEnv) : List Ev :=
  if action = some "submit_record" then
    [Ev.addRecord (formRecord form), Ev.commit, Ev.flash recordAddedMsg MsgCat.success]
  else
    process_csv persons tasks env.csv ++ [Ev.flash csvProcessedMsg MsgCat.success]

/-! Concrete fixtures, used by the witnesses and counterexamples. -/

/-- Reference data with one person, Alice, of id 1. -/
def ps1 : List (Int × String) := [(1, "Alice")]

/-- Reference data with one task, Dishes, of id 1. -/
def ts1 : List (Int × String) := [(1, "Dishes")]

/-- Reference data where Alice has the (falsy) id 0. -/
def ps0 : List (Int × String) := [(0, "Alice")]

/-- Name-to-id mapping with Alice resolving to 1. -/
def pd1 : List (String × Int) := [("Alice", 1)]

/-- Name-to-id mapping with Dishes resolving to 1. -/
def td1 : List (String × Int) := [("Dishes", 1)]

/-- Name-to-id mapping with Alice resolving to the falsy id 0. -/
def pd0 : List (String × Int) := [("Alice", 0)]

/-- A CSV row with names that resolve against `ps1`/`ts1`. -/
def row1 : Row := ⟨"2024-01-01", "Alice", "Dishes", 15⟩

/-- A CSV row whose person, Bob, is absent from the reference data. -/
def rowBob : Row := ⟨"2024-01-01", "Bob", "Dishes", 10⟩

/-- A two-row CSV of which exactly one row resolves. -/
def rows2 : List Row := [row1, rowBob]

/-- A form carrying a file with a disallowed extension. -/
def formTxt : Form := ⟨some "2024-01-01", some 1, some 1, some 10, some "data.txt"⟩

/-- A form carrying a file with the allowed extension. -/
def formCsv : Form := ⟨some "2024-01-01", some 1, some 1, some 10, some "data.csv"⟩

/-- A manual submission whose fields are all valid except that the duration
is negative. -/
def formNeg : Form := ⟨some "2024-01-01", some 1, some 1, some (-5), none⟩

/-- A manual submission whose fields are all valid except that the duration
is zero. -/
def formZero : Form := ⟨some "2024-01-01", some 1, some 1, some 0, none⟩

/-- A POST whose minutes value failed integer coercion, so the WTForms
datum is `None`. -/
def formNoneMin : Form := ⟨some "2024-01-01", some 1, some 1, none, none⟩

/-- A CSV row whose person name maps to the falsy id 0 in `pd0` and whose
task, Laundry, is absent from `td1`. -/
def rowLaundry : Row := ⟨"2024-01-01", "Alice", "Laundry", 20⟩

/-- An environment where no database call fails and the CSV parses to no
rows. -/
def cleanEnvH : HandlerEnv := ⟨none, none, ⟨none, Except.ok [], none⟩, none, none⟩

/-- An environment where the truncate call raises `SQLAlchemyError`. -/
def envTruncBoom : HandlerEnv := ⟨some "boom", none, ⟨none, Except.ok [], none⟩, none, none⟩

/-- An environment where reading the CSV raises a parsing exception. -/
def envParseBoom : HandlerEnv := ⟨none, none, ⟨none, Except.error "bad csv", none⟩, none, none⟩

/-- A `process_csv` environment where the reference-data queries raise
`SQLAlchemyError`. -/
def envQ : CsvEnv := ⟨some "db down", Except.ok [], none⟩

/-- The diagnostic `process_csv` flashes for a skipped row: the person
lookup is tested first, so a falsy person id yields the person diagnostic
and otherwise the task diagnostic is flashed. -/
def rowDiag (persons tasks : List (String × Int)) (row : Row) : String :=
  if pyFalsy (persons.lookup row.person) then personNotFoundMsg row.person
  else taskNotFoundMsg row.task

/-! Helper lemmas. -/

/-- The records collected by the row scan are exactly the resolvable rows. -/
theorem processRows_length (persons tasks : List (String × Int)) (rows : List Row) :
    ((processRows persons tasks rows).1).length
      = (rows.filter (resolvableRow persons tasks)).length := by
  induction rows with
  | nil => rfl
  | cons row rest ih =>
    by_cases hp : pyFalsy (persons.lookup row.person) = true
    · simp [processRows, resolvableRow, hp, ih]
    · by_cases ht : pyFalsy (tasks.lookup row.task) = true
      · simp [processRows, resolvableRow, hp, ht, ih]
      · simp [processRows, resolvableRow, hp, ht, ih]

/-- Every event the row scan emits is a flashed message. -/
theorem processRows_all_flash (persons tasks : List (String × Int)) (rows : List Row) :
    ((processRows persons tasks rows).2).all isFlashEv = true := by
  induction rows with
  | nil => rfl
  | cons row rest ih =>
    by_cases hp : pyFalsy (persons.lookup row.person) = true
    · simp [processRows, isFlashEv, hp, ih]
    · by_cases ht : pyFalsy (tasks.lookup row.task) = true
      · simp [processRows, isFlashEv, hp, ht, ih]
      · simp [processRows, hp, ht, ih]

/-- The truncate wrapper is its own transactional boundary, whether the call
succeeds or raises. -/
theorem ownTxn_truncate (err : Option String) :
    ownTxn truncSql (truncate_postgres_tbl err "stg_fact_housework_tasks") := by
  cases err <;> simp [ownTxn, truncate_postgres_tbl]

/-- The populate wrapper is its own transactional boundary. -/
theorem ownTxn_populate (err : Option String) :
    ownTxn popSql (populate_fact_housework_tasks err) := by
  cases err <;> simp [ownTxn, populate_fact_housework_tasks]

/-- The backfill wrapper is its own transactional boundary. -/
theorem ownTxn_backfill (err : Option String) :
    ownTxn backSql (backfill_agg_daily_housework_tasks err) := by
  cases err <;> simp [ownTxn, backfill_agg_daily_housework_tasks]

/-- The truncate wrapper always issues its stored-procedure call. -/
theorem truncate_execSql_mem (err : Option String) :
    Ev.execSql truncSql ∈ truncate_postgres_tbl err "stg_fact_housework_tasks" := by
  cases err <;> simp [truncate_postgres_tbl]

/-! Claim theorems. -/

/-- Claim C1, counterexample: a POST with action `upload_csv` carrying the
file `data.txt` (extension not `.csv`) does issue a database operation —
the staging-truncate stored procedure is called — contradicting the claim
that such a request issues no database operation. -/
theorem claim1_counterexample :
    allowed_file "data.txt" = false
    ∧ Ev.execSql truncSql
        ∈ (add_task_record ps1 ts1 true (some "upload_csv") formTxt cleanEnvH).1 := by
  decide

/-- Claim C1 (amended): on a POST with action `upload_csv` carrying a file
whose extension is not `.csv`, a rejection message is always produced and
nothing beyond the truncate happens (no `process_csv`, no insert), but the
staging truncate is invoked before the extension check, so the request does
issue a database operation. -/
theorem claim1_amended (persons tasks : List (Int × String)) (form : Form)
    (env : HandlerEnv) (fn : String) (hfile : form.file = some fn)
    (hext : allowed_file fn = false) :
    add_task_record persons tasks true (some "upload_csv") form env
      = (truncate_postgres_tbl env.truncateErr "stg_fact_housework_tasks"
          ++ [Ev.flash invalidCsvFileMsg MsgCat.danger, Ev.redirect], none)
    ∧ Ev.execSql truncSql
        ∈ (add_task_record persons tasks true (some "upload_csv") form env).1 := by
  have h1 : ¬(some "upload_csv" = some "submit_record"
      ∧ formValidates form (persons.map Prod.fst) (tasks.map Prod.fst) = true) := by
    intro h
    exact absurd h.1 (by decide)
  have e1 : add_task_record persons tasks true (some "upload_csv") form env
      = (truncate_postgres_tbl env.truncateErr "stg_fact_housework_tasks"
          ++ [Ev.flash invalidCsvFileMsg MsgCat.danger, Ev.redirect], none) := by
    simp only [add_task_record, if_neg h1, hfile]
    simp [hext]
  refine ⟨e1, ?_⟩
  rw [e1]
  exact List.mem_append_left _ (truncate_execSql_mem env.truncateErr)

/-- Claim C1, witness: the amended statement at the concrete rejected
upload. -/
theorem claim1_witness :
    add_task_record ps1 ts1 true (some "upload_csv") formTxt cleanEnvH
      = (truncate_postgres_tbl cleanEnvH.truncateErr "stg_fact_housework_tasks"
          ++ [Ev.flash invalidCsvFileMsg MsgCat.danger, Ev.redirect], none)
    ∧ Ev.execSql truncSql
        ∈ (add_task_record ps1 ts1 true (some "upload_csv") formTxt cleanEnvH).1 :=
  claim1_amended ps1 ts1 formTxt cleanEnvH "data.txt" rfl (by decide)

/-- Claim C2, counterexample: with reference data mapping Alice to the id 0,
the name Alice is present in the person mapping and Dishes in the task
mapping, so the claim counts the single row as valid (M = 1) and requires a
bulk insert of one record plus a success message; the code instead skips
the row and inserts nothing, flashing a not-found diagnostic and the
no-valid-records warning. -/
theorem claim2_counterexample :
    ((nameToId ps0).lookup "Alice").isSome = true
    ∧ ((nameToId ts1).lookup "Dishes").isSome = true
    ∧ process_csv ps0 ts1 ⟨none, Except.ok [row1], none⟩
        = [Ev.flash (personNotFoundMsg "Alice") MsgCat.danger,
           Ev.flash noValidMsg MsgCat.warning] := by
  decide

/-- Claim C2 (amended): counting M as the rows whose person and task names
resolve to truthy (non-zero) ids, if M ≥ 1 then `process_csv` on a cleanly
parsed CSV performs one bulk insert of exactly M records and flashes a
success message reporting M; every event before the insert is a flashed
per-row diagnostic. -/
theorem claim2_amended (persons tasks : List (Int × String)) (rows : List Row)
    (h : 1 ≤ (rows.filter (resolvableRow (nameToId persons) (nameToId tasks))).length) :
    process_csv persons tasks ⟨none, Except.ok rows, none⟩
      = (processRows (nameToId persons) (nameToId tasks) rows).2
        ++ [Ev.bulkInsert (processRows (nameToId persons) (nameToId tasks) rows).1,
            Ev.commit,
            Ev.flash (successInsertedMsg
              (rows.filter (resolvableRow (nameToId persons) (nameToId tasks))).length)
              MsgCat.success]
    ∧ ((processRows (nameToId persons) (nameToId tasks) rows).1).length
        = (rows.filter (resolvableRow (nameToId persons) (nameToId tasks))).length
    ∧ ((processRows (nameToId persons) (nameToId tasks) rows).2).all isFlashEv = true := by
  have hlen := processRows_length (nameToId persons) (nameToId tasks) rows
  have hne : (processRows (nameToId persons) (nameToId tasks) rows).1 ≠ [] := by
    intro h0
    rw [h0] at hlen
    simp at hlen
    omega
  refine ⟨?_, hlen, processRows_all_flash _ _ _⟩
  simp only [process_csv, process_csv_run, process_csv_body, if_neg hne, runHandlers, hlen]

/-- Claim C2, witness: the amended statement on a concrete two-row CSV with
exactly one resolvable row. -/
theorem claim2_witness :
    process_csv ps1 ts1 ⟨none, Except.ok rows2, none⟩
      = (processRows (nameToId ps1) (nameToId ts1) rows2).2
        ++ [Ev.bulkInsert (processRows (nameToId ps1) (nameToId ts1) rows2).1,
            Ev.commit,
            Ev.flash (successInsertedMsg
              (rows2.filter (resolvableRow (nameToId ps1) (nameToId ts1))).length)
              MsgCat.success]
    ∧ ((processRows (nameToId ps1) (nameToId ts1) rows2).1).length
        = (rows2.filter (resolvableRow (nameToId ps1) (nameToId ts1))).length
    ∧ ((processRows (nameToId ps1) (nameToId ts1) rows2).2).all isFlashEv = true :=
  claim2_amended ps1 ts1 rows2 (by decide)

/-- Claim C3, counterexample: with Alice present in the person mapping but
carrying the falsy id 0 and the row's task, Laundry, absent from the task
mapping, the claim applies (the task name is absent) and demands a
diagnostic naming the missing entity; the code instead flashes only the
person not-found diagnostic — naming Alice, who is present — and no
diagnostic naming the missing task Laundry is ever emitted. -/
theorem claim3_counterexample :
    pd0.lookup rowLaundry.person = some 0
    ∧ td1.lookup rowLaundry.task = none
    ∧ (processRows pd0 td1 [rowLaundry]).2
        = [Ev.flash (personNotFoundMsg "Alice") MsgCat.danger]
    ∧ Ev.flash (taskNotFoundMsg rowLaundry.task) MsgCat.danger
        ∉ (processRows pd0 td1 [rowLaundry]).2 := by
  decide

/-- Claim C3 (amended): a CSV row whose person or task name is absent from
the reference mapping contributes no record to the inserted set, one danger
diagnostic is flashed for it, and the remaining rows are processed exactly
as they would be without it (one unresolvable row never aborts the batch).
The diagnostic names the missing entity except in one case: it is the
person diagnostic whenever the person name is the absent one, and the task
diagnostic whenever the person resolved to a truthy id and the task name is
absent, but when the person name is present with the falsy id 0 the person
diagnostic is flashed (the person lookup is tested first), even when the
task is the absent entity. -/
theorem claim3_amended (persons tasks : List (String × Int)) (row : Row) (rest : List Row)
    (h : persons.lookup row.person = none ∨ tasks.lookup row.task = none) :
    (processRows persons tasks (row :: rest)).1 = (processRows persons tasks rest).1
    ∧ (processRows persons tasks (row :: rest)).2
        = Ev.flash (rowDiag persons tasks row) MsgCat.danger
          :: (processRows persons tasks rest).2
    ∧ (persons.lookup row.person = none →
        rowDiag persons tasks row = personNotFoundMsg row.person)
    ∧ (persons.lookup row.person = some 0 →
        rowDiag persons tasks row = personNotFoundMsg row.person)
    ∧ (pyFalsy (persons.lookup row.person) = false →
        rowDiag persons tasks row = taskNotFoundMsg row.task) := by
  by_cases hp : pyFalsy (persons.lookup row.person) = true
  · exact ⟨by simp [processRows, hp], by simp [processRows, rowDiag, hp],
      fun _ => by simp [rowDiag, hp], fun _ => by simp [rowDiag, hp],
      fun hf => by rw [hf] at hp; exact absurd hp (by simp)⟩
  · have hpf : pyFalsy (persons.lookup row.person) = false := by
      revert hp
      cases pyFalsy (persons.lookup row.person) <;> simp
    have ht : tasks.lookup row.task = none := by
      rcases h with h | h
      · rw [h] at hpf
        exact absurd hpf (by simp [pyFalsy])
      · exact h
    have htf : pyFalsy (tasks.lookup row.task) = true := by simp [ht, pyFalsy]
    refine ⟨by simp [processRows, hpf, htf], by simp [processRows, rowDiag, hpf, htf],
      ?_, ?_, ?_⟩
    · intro hn
      rw [hn] at hpf
      exact absurd hpf (by simp [pyFalsy])
    · intro hz
      rw [hz] at hpf
      exact absurd hpf (by simp [pyFalsy])
    · intro _
      simp [rowDiag, hpf]

/-- Claim C3, witness: the row for Bob (absent from the person mapping) is
skipped with its diagnostic while the following row is still processed. -/
theorem claim3_witness :
    (processRows pd1 td1 (rowBob :: [row1])).1 = (processRows pd1 td1 [row1]).1
    ∧ (processRows pd1 td1 (rowBob :: [row1])).2
        = Ev.flash (rowDiag pd1 td1 rowBob) MsgCat.danger :: (processRows pd1 td1 [row1]).2
    ∧ (pd1.lookup rowBob.person = none →
        rowDiag pd1 td1 rowBob = personNotFoundMsg rowBob.person)
    ∧ (pd1.lookup rowBob.person = some 0 →
        rowDiag pd1 td1 rowBob = personNotFoundMsg rowBob.person)
    ∧ (pyFalsy (pd1.lookup rowBob.person) = false →
        rowDiag pd1 td1 rowBob = taskNotFoundMsg rowBob.task) :=
  claim3_amended pd1 td1 rowBob [row1] (Or.inl (by decide))

/-- Claim C4: when zero CSV rows resolve, `process_csv` on a cleanly parsed
file performs no insert and no commit — its whole trace consists of flashed
messages — and it ends by reporting the no-valid-records message with the
warning category, not an error. -/
theorem claim4 (persons tasks : List (Int × String)) (rows : List Row)
    (h : rows.filter (resolvableRow (nameToId persons) (nameToId tasks)) = []) :
    process_csv persons tasks ⟨none, Except.ok rows, none⟩
      = (processRows (nameToId persons) (nameToId tasks) rows).2
        ++ [Ev.flash noValidMsg MsgCat.warning]
    ∧ (process_csv persons tasks ⟨none, Except.ok rows, none⟩).all isFlashEv = true := by
  have hlen := processRows_length (nameToId persons) (nameToId tasks) rows
  rw [h] at hlen
  simp only [List.length_nil] at hlen
  have hnil : (processRows (nameToId persons) (nameToId tasks) rows).1 = [] :=
    List.length_eq_zero.mp hlen
  have e1 : process_csv persons tasks ⟨none, Except.ok rows, none⟩
      = (processRows (nameToId persons) (nameToId tasks) rows).2
        ++ [Ev.flash noValidMsg MsgCat.warning] := by
    simp only [process_csv, process_csv_run, process_csv_body, if_pos hnil, runHandlers]
  refine ⟨e1, ?_⟩
  rw [e1]
  simp [List.all_append, processRows_all_flash, isFlashEv]

/-- Claim C4, witness: a one-row CSV whose only row is unresolvable yields
only flashed messages and the warning report. -/
theorem claim4_witness :
    process_csv ps1 ts1 ⟨none, Except.ok [rowBob], none⟩
      = (processRows (nameToId ps1) (nameToId ts1) [rowBob]).2
        ++ [Ev.flash noValidMsg MsgCat.warning]
    ∧ (process_csv ps1 ts1 ⟨none, Except.ok [rowBob], none⟩).all isFlashEv = true :=
  claim4 ps1 ts1 [rowBob] (by decide)

/-- Claim C9: a row whose person name maps to the id 0 is treated as
unresolved even though the name is present in the mapping — the row is
skipped and the person not-found diagnostic is flashed — and likewise for a
task name mapping to 0 when the person id is truthy, because the code tests
the looked-up id for truthiness rather than for presence. -/
theorem claim9 (persons tasks : List (String × Int)) (row : Row) (rest : List Row) :
    (persons.lookup row.person = some 0 →
      (persons.lookup row.person).isSome = true
      ∧ (processRows persons tasks (row :: rest)).1 = (processRows persons tasks rest).1
      ∧ (processRows persons tasks (row :: rest)).2
          = Ev.flash (personNotFoundMsg row.person) MsgCat.danger
            :: (processRows persons tasks rest).2)
    ∧ (pyFalsy (persons.lookup row.person) = false → tasks.lookup row.task = some 0 →
      (tasks.lookup row.task).isSome = true
      ∧ (processRows persons tasks (row :: rest)).1 = (processRows persons tasks rest).1
      ∧ (processRows persons tasks (row :: rest)).2
          = Ev.flash (taskNotFoundMsg row.task) MsgCat.danger
            :: (processRows persons tasks rest).2) := by
  constructor
  · intro hp
    have hpt : pyFalsy (persons.lookup row.person) = true := by simp [hp, pyFalsy]
    exact ⟨by simp [hp], by simp [processRows, hpt], by simp [processRows, hpt]⟩
  · intro hp ht
    have htt : pyFalsy (tasks.lookup row.task) = true := by simp [ht, pyFalsy]
    exact ⟨by simp [ht], by simp [processRows, hp, htt], by simp [processRows, hp, htt]⟩

/-- Claim C9, witness: with Alice present in the mapping but carrying id 0,
her row is skipped and the person not-found diagnostic is flashed. -/
theorem claim9_witness :
    (pd0.lookup row1.person).isSome = true
    ∧ (processRows pd0 td1 (row1 :: [])).1 = (processRows pd0 td1 []).1
    ∧ (processRows pd0 td1 (row1 :: [])).2
        = Ev.flash (personNotFoundMsg row1.person) MsgCat.danger
          :: (processRows pd0 td1 []).2 :=
  (claim9 pd0 td1 row1 []).1 (by decide)

/-- Claim C6: no failure of the CSV ingestion path escapes `process_csv` —
for every environment the exception component of its result is `none` — and
each caught failure becomes a user-visible danger message: a storage error
during the reference queries is rolled back and reported, a parsing failure
is reported as an unexpected error, and a storage error during the bulk
insert (which only happens when some records validated) is rolled back and
reported. -/
theorem claim6 (persons tasks : List (Int × String)) (env : CsvEnv) :
    (process_csv_run persons tasks env).2 = none
    ∧ (∀ e, env.queryErr = some e →
        process_csv_run persons tasks env
          = ([Ev.rollback, Ev.flash (errProcessingMsg e) MsgCat.danger], none))
    ∧ (∀ e, env.queryErr = none → env.parsed = Except.error e →
        process_csv_run persons tasks env
          = ([Ev.flash (unexpectedErrMsg e) MsgCat.danger], none))
    ∧ (∀ e rows, env.queryErr = none → env.parsed = Except.ok rows →
        env.insertErr = some e →
        (processRows (nameToId persons) (nameToId tasks) rows).1 ≠ [] →
        process_csv_run persons tasks env
          = ((processRows (nameToId persons) (nameToId tasks) rows).2
              ++ [Ev.bulkInsert (processRows (nameToId persons) (nameToId tasks) rows).1,
                  Ev.rollback, Ev.flash (errProcessingMsg e) MsgCat.danger], none)) := by
  obtain ⟨q, p, i⟩ := env
  refine ⟨?_, ?_, ?_, ?_⟩
  · cases q with
    | some e => rfl
    | none =>
      cases p with
      | error e => rfl
      | ok rows =>
        by_cases hr : (processRows (nameToId persons) (nameToId tasks) rows).1 = []
        · simp [process_csv_run, process_csv_body, runHandlers, hr]
        · cases i with
          | some e => simp [process_csv_run, process_csv_body, runHandlers, hr]
          | none => simp [process_csv_run, process_csv_body, runHandlers, hr]
  · intro e he
    cases he
    rfl
  · intro e hq hp
    cases hq
    cases hp
    rfl
  · intro e rows hq hp hi hr
    cases hq
    cases hp
    cases hi
    simp [process_csv_run, process_csv_body, runHandlers, if_neg hr]

/-- Claim C6, witness: with the reference queries raising a storage error,
`process_csv` raises nothing and reports the rolled-back failure. -/
theorem claim6_witness :
    (process_csv_run ps1 ts1 envQ).2 = none
    ∧ process_csv_run ps1 ts1 envQ
        = ([Ev.rollback, Ev.flash (errProcessingMsg "db down") MsgCat.danger], none) :=
  ⟨(claim6 ps1 ts1 envQ).1, (claim6 ps1 ts1 envQ).2.1 "db down" rfl⟩

/-- Claim C7, counterexample: a manual submission whose duration is the
negative value -5 (so ≤ 0) passes validation — the record is inserted and
the success message flashed — and the dedicated minutes message is never
produced, contradicting the claim for all durations ≤ 0. -/
theorem claim7_counterexample :
    formNeg.task_duration_minutes = some (-5)
    ∧ Ev.addRecord ⟨"2024-01-01", 1, 1, -5⟩
        ∈ (add_task_record ps1 ts1 true (some "submit_record") formNeg cleanEnvH).1
    ∧ Ev.flash minutesMsg MsgCat.danger
        ∉ (add_task_record ps1 ts1 true (some "submit_record") formNeg cleanEnvH).1 := by
  decide

/-- Claim C7 (amended): a manual `submit_record` submission with
`task_duration_minutes` equal to 0 is rejected — `DataRequired` fails on the
falsy value — and the dedicated minutes message is flashed in addition to
the generic invalid-submission message, with no record inserted; a strictly
negative duration, however, passes validation and is inserted. -/
theorem claim7_amended (persons tasks : List (Int × String)) (form : Form)
    (env : HandlerEnv) (h : form.task_duration_minutes = some 0) :
    add_task_record persons tasks true (some "submit_record") form env
      = ([Ev.flash invalidActionMsg MsgCat.danger, Ev.flash minutesMsg MsgCat.danger,
          Ev.render persons tasks], none) := by
  have hv : formValidates form (persons.map Prod.fst) (tasks.map Prod.fst) = false := by
    simp [formValidates, h, dataRequiredInt]
  have hne : ("submit_record" : String) ≠ "upload_csv" := by decide
  simp only [add_task_record, fallbackBranch]
  simp [hv, h, hne]

/-- Claim C7, witness: the amended statement at the concrete zero-duration
submission. -/
theorem claim7_witness :
    add_task_record ps1 ts1 true (some "submit_record") formZero cleanEnvH
      = ([Ev.flash invalidActionMsg MsgCat.danger, Ev.flash minutesMsg MsgCat.danger,
          Ev.render ps1 ts1], none) :=
  claim7_amended ps1 ts1 formZero cleanEnvH rfl

/-- Claim C8, counterexample: a POST with a missing action whose minutes
value failed integer coercion (the WTForms datum is `None`) flashes the
generic message but then evaluates `None <= 0` at the minutes check, so an
uncaught `TypeError` propagates and the form is never re-rendered,
contradicting the claim's universal re-rendering. -/
theorem claim8_counterexample :
    add_task_record ps1 ts1 true none formNoneMin cleanEnvH
      = ([Ev.flash invalidActionMsg MsgCat.danger], some (PyExc.generic typeErrMsg))
    ∧ Ev.render ps1 ts1 ∉ (add_task_record ps1 ts1 true none formNoneMin cleanEnvH).1 := by
  decide

/-- Claim C8 (amended): a POST whose action is neither `submit_record` nor
`upload_csv` (a missing action included) and whose minutes field carries a
coerced integer datum (the field default 0 applies when it is absent)
produces exactly the generic invalid-action danger message and the
re-rendered form with the dropdown choices repopulated from the current
reference data — no database event and no exception; when the minutes
datum failed integer coercion, the generic message is still flashed but
the minutes check raises an uncaught `TypeError` and no re-render
happens. -/
theorem claim8_amended (persons tasks : List (Int × String)) (action : Option String)
    (form : Form) (env : HandlerEnv) (m : Int)
    (hm : form.task_duration_minutes = some m)
    (h1 : action ≠ some "submit_record") (h2 : action ≠ some "upload_csv") :
    add_task_record persons tasks true action form env
      = ([Ev.flash invalidActionMsg MsgCat.danger, Ev.render persons tasks], none) := by
  have g1 : ¬(action = some "submit_record"
      ∧ formValidates form (persons.map Prod.fst) (tasks.map Prod.fst) = true) :=
    fun hc => h1 hc.1
  have g2 : ¬(action = some "upload_csv" ∧ form.file.isSome = true) :=
    fun hc => h2 hc.1
  have g3 : ¬(m ≤ 0 ∧ action = some "submit_record") :=
    fun hc => h1 hc.2
  simp only [add_task_record, if_neg g1, if_neg g2, fallbackBranch, hm, if_neg g3]
  rfl

/-- Claim C8, witness: the unknown action value with a coerced minutes
datum yields the generic message and the repopulated form. -/
theorem claim8_witness :
    add_task_record ps1 ts1 true (some "other_action") formZero cleanEnvH
      = ([Ev.flash invalidActionMsg MsgCat.danger, Ev.render ps1 ts1], none) :=
  claim8_amended ps1 ts1 (some "other_action") formZero cleanEnvH 0 rfl
    (by decide) (by decide)

/-- Claim C5: around each completed ingestion event — a validated
`submit_record` whose insert raises nothing, or an `upload_csv` with an
allowed file — the trace is exactly truncate, then the ingest step, then
populate, then backfill, in that order, for every combination of
stored-procedure failures (so a caught failure in any of the three calls
never prevents the later ones), and each of the three wrappers forms its
own transactional boundary, committing on success and rolling back on a
caught failure. -/
theorem claim5 (persons tasks : List (Int × String)) (action : Option String)
    (form : Form) (env : HandlerEnv) (fn : String)
    (hbranch :
      (action = some "submit_record"
        ∧ formValidates form (persons.map Prod.fst) (tasks.map Prod.fst) = true
        ∧ env.recordInsertErr = none)
      ∨ (action = some "upload_csv" ∧ form.file = some fn ∧ allowed_file fn = true)) :
    (add_task_record persons tasks true action form env).1
      = truncate_postgres_tbl env.truncateErr "stg_fact_housework_tasks"
        ++ ingestMid persons tasks action form env
        ++ populate_fact_housework_tasks env.populateErr
        ++ backfill_agg_daily_housework_tasks env.backfillErr
        ++ [Ev.redirect]
    ∧ ownTxn truncSql (truncate_postgres_tbl env.truncateErr "stg_fact_housework_tasks")
    ∧ ownTxn popSql (populate_fact_housework_tasks env.populateErr)
    ∧ ownTxn backSql (backfill_agg_daily_housework_tasks env.backfillErr) := by
  refine ⟨?_, ownTxn_truncate _, ownTxn_populate _, ownTxn_backfill _⟩
  rcases hbranch with ⟨ha, hv, hins⟩ | ⟨ha, hfile, hext⟩
  · subst ha
    simp only [add_task_record, ingestMid, fallbackBranch]
    simp [hv, hins, List.append_assoc]
  · subst ha
    have hne : ("upload_csv" : String) ≠ "submit_record" := by decide
    simp only [add_task_record, ingestMid]
    simp [hne, hfile, hext, List.append_assoc]

/-- Claim C5, witness: a concrete allowed upload whose truncate call fails;
the populate and backfill calls are still attempted, each in its own
transactional boundary. -/
theorem claim5_witness :
    (add_task_record ps1 ts1 true (some "upload_csv") formCsv envTruncBoom).1
      = truncate_postgres_tbl envTruncBoom.truncateErr "stg_fact_housework_tasks"
        ++ ingestMid ps1 ts1 (some "upload_csv") formCsv envTruncBoom
        ++ populate_fact_housework_tasks envTruncBoom.populateErr
        ++ backfill_agg_daily_housework_tasks envTruncBoom.backfillErr
        ++ [Ev.redirect]
    ∧ ownTxn truncSql
        (truncate_postgres_tbl envTruncBoom.truncateErr "stg_fact_housework_tasks")
    ∧ ownTxn popSql (populate_fact_housework_tasks envTruncBoom.populateErr)
    ∧ ownTxn backSql (backfill_agg_daily_housework_tasks envTruncBoom.backfillErr) :=
  claim5 ps1 ts1 (some "upload_csv") formCsv envTruncBoom "data.csv"
    (Or.inr ⟨rfl, rfl, by decide⟩)

/-- Claim C10: for every `upload_csv` request whose file passes the
extension check, and for every environment — including ones where
`process_csv` reports a danger failure or inserts nothing — the handler's
trace is the truncate events, then the `process_csv` events, then
unconditionally the flashed success message, then the populate and backfill
events. -/
theorem claim10 (persons tasks : List (Int × String)) (form : Form)
    (env : HandlerEnv) (fn : String) (hfile : form.file = some fn)
    (hext : allowed_file fn = true) :
    add_task_record persons tasks true (some "upload_csv") form env
      = (truncate_postgres_tbl env.truncateErr "stg_fact_housework_tasks"
          ++ process_csv persons tasks env.csv
          ++ [Ev.flash csvProcessedMsg MsgCat.success]
          ++ populate_fact_housework_tasks env.populateErr
          ++ backfill_agg_daily_housework_tasks env.backfillErr
          ++ [Ev.redirect], none) := by
  have hne : ("upload_csv" : String) ≠ "submit_record" := by decide
  simp only [add_task_record]
  simp [hne, hfile, hext, List.append_assoc]

/-- Claim C10, witness: with the CSV file failing to parse, the success
message is flashed right after the (failing) `process_csv` events. -/
theorem claim10_witness :
    add_task_record ps1 ts1 true (some "upload_csv") formCsv envParseBoom
      = (truncate_postgres_tbl envParseBoom.truncateErr "stg_fact_housework_tasks"
          ++ process_csv ps1 ts1 envParseBoom.csv
          ++ [Ev.flash csvProcessedMsg MsgCat.success]
          ++ populate_fact_housework_tasks envParseBoom.populateErr
          ++ backfill_agg_daily_housework_tasks envParseBoom.backfillErr
          ++ [Ev.redirect], none) :=
  claim10 ps1 ts1 formCsv envParseBoom "data.csv" rfl (by decide)
